import Mathlib

namespace CalendarGen

/-- Day numbers count days of the proleptic Gregorian calendar from 0000-03-01,
mirroring the arithmetic of Python `datetime.date` (an immutable ordinal plus
field accessors). `daysFromCivil` converts a (year, month, day) triple to its
day number, via the standard 400-year-era decomposition of the Gregorian
calendar. Meaningful for year ≥ 1, month 1–12, day within the month. -/
def daysFromCivil (y m d : Nat) : Nat :=
  let yAdj := if m ≤ 2 then y - 1 else y
  let era := yAdj / 400
  let yoe := yAdj % 400
  let mp := (m + 9) % 12
  let doy := (153 * mp + 2) / 5 + d - 1
  let doe := yoe * 365 + yoe / 4 - yoe / 100 + doy
  era * 146097 + doe

/-- Year field of a day number (the `date.year` accessor). -/
def yearOf (n : Nat) : Nat :=
  let doe := n % 146097
  let yoe := (doe - doe / 1460 + doe / 36524 - doe / 146096) / 365
  let doy := doe - (365 * yoe + yoe / 4 - yoe / 100)
  let mp := (5 * doy + 2) / 153
  n / 146097 * 400 + yoe + (if 10 ≤ mp then 1 else 0)

/-- Month field of a day number (the `date.month` accessor), in 1–12. -/
def monthOf (n : Nat) : Nat :=
  let doe := n % 146097
  let yoe := (doe - doe / 1460 + doe / 36524 - doe / 146096) / 365
  let doy := doe - (365 * yoe + yoe / 4 - yoe / 100)
  let mp := (5 * doy + 2) / 153
  if mp < 10 then mp + 3 else mp - 9

/-- Day-of-month field of a day number (the `date.day` accessor). -/
def dayOf (n : Nat) : Nat :=
  let doe := n % 146097
  let yoe := (doe - doe / 1460 + doe / 36524 - doe / 146096) / 365
  let doy := doe - (365 * yoe + yoe / 4 - yoe / 100)
  let mp := (5 * doy + 2) / 153
  doy - (153 * mp + 2) / 5 + 1

/-- Python `date.weekday()`: Monday = 0 … Sunday = 6. Day number 0
(0000-03-01) was a Wednesday, hence the offset 2. -/
def weekdayOf (n : Nat) : Nat := (n + 2) % 7

/-- Western (Gregorian) Easter Sunday of a year, as a day number. This embeds
the algorithm of `dateutil.easter.easter` (method 3, the default), the library
the program calls. The library computes `p = i - j` over ℤ with `p ∈ [-6, 56]`;
here `p` carries a fixed shift of +6 so that all arithmetic stays in ℕ
(`p + 21 = (i - j) + 27`, `p = (i - j) + 6`, `p + 20 = (i - j) + 26`). -/
def easterNat (y : Nat) : Nat :=
  let g := y % 19
  let c := y / 100
  let h := (c - c / 4 - (8 * c + 13) / 25 + 19 * g + 15) % 30
  let i := h - (h / 28) * (1 - (h / 28) * (29 / (h + 1)) * ((21 - g) / 11))
  let j := (y + y / 4 + i + 2 - c + c / 4) % 7
  let p := i + 6 - j
  let d := 1 + (p + 21 + p / 40) % 31
  let m := 3 + (p + 20) / 30
  daysFromCivil y m d

/-- Backward walk of the Carnival rule (`generate.py` lines 140–146): starting
from Easter Sunday, step back one day per iteration, decrementing the counter
`i` only on days that are not a Sunday; stop when the counter reaches zero.
The result is the source's `carnaval_date`. -/
def carnavalDate (c : Nat) (i : Nat) : Nat :=
  if i = 0 then c
  else carnavalDate (c - 1) (if weekdayOf c = 6 then i else i - 1)
termination_by 7 * i + weekdayOf c
decreasing_by
  simp only [weekdayOf] at *
  split <;> omega

/-- Python `str.capitalize`: first character uppercased, the rest lowercased. -/
def pyCapitalize (s : String) : String :=
  match s.toList with
  | [] => ""
  | c :: cs => String.mk (c.toUpper :: cs.map Char.toLower)

/-- Long month names produced by `date.strftime` under the `nl_NL.utf8` locale
the program installs (modelled from the glibc locale tables; months outside
1–12 give the empty string). -/
def monthName : Nat → String
  | 1 => "januari"
  | 2 => "februari"
  | 3 => "maart"
  | 4 => "april"
  | 5 => "mei"
  | 6 => "juni"
  | 7 => "juli"
  | 8 => "augustus"
  | 9 => "september"
  | 10 => "oktober"
  | 11 => "november"
  | 12 => "december"
  | _ => ""

/-- Short lower-case month names of `strftime` with the nl_NL locale. -/
def shortMonthName : Nat → String
  | 1 => "jan"
  | 2 => "feb"
  | 3 => "mrt"
  | 4 => "apr"
  | 5 => "mei"
  | 6 => "jun"
  | 7 => "jul"
  | 8 => "aug"
  | 9 => "sep"
  | 10 => "okt"
  | 11 => "nov"
  | 12 => "dec"
  | _ => ""

/-- Long weekday names of `strftime` with the nl_NL locale, indexed by
Python weekday numbers (Monday = 0). -/
def weekdayName : Nat → String
  | 0 => "maandag"
  | 1 => "dinsdag"
  | 2 => "woensdag"
  | 3 => "donderdag"
  | 4 => "vrijdag"
  | 5 => "zaterdag"
  | 6 => "zondag"
  | _ => ""

/-- Body of the `holiday` function of `generate.py` (lines 68–150) with the
Carnival anchor (`carnaval_date`) abstracted as a parameter `a`; `holiday`
below instantiates `a` with the backward walk, so `holiday` is the literal
rule chain of the source. Python's early returns are flattened into one
if-chain; the Easter date, computed once into a local in the source, is
written inline (it is a pure function of the date's year). -/
def holidayWith (d a : Nat) : String :=
  if monthOf d = 1 ∧ dayOf d = 1 then "Nieuwjaar"
  else if monthOf d = 1 ∧ dayOf d = 6 then "Drie Koningen"
  else if monthOf d = 2 ∧ dayOf d = 14 then "Valentijn"
  else if monthOf d = 4 ∧ dayOf d = 27 then "Koningsdag"
  else if monthOf d = 5 ∧ dayOf d = 4 then "Dodenherdenking"
  else if monthOf d = 5 ∧ dayOf d = 5 then "Bevrijdingsdag"
  else if monthOf d = 7 ∧ dayOf d = 29 then "Frikandellendag"
  else if monthOf d = 10 ∧ dayOf d = 4 then "Dierendag"
  else if monthOf d = 12 ∧ dayOf d = 5 then "Sinterklaas"
  else if monthOf d = 12 ∧ dayOf d = 25 then "Eerste Kerstdag"
  else if monthOf d = 12 ∧ dayOf d = 26 then "Tweede Kerstdag"
  else if monthOf d = 12 ∧ dayOf d = 31 then "Oudjaar"
  else if monthOf d = 3 ∧ weekdayOf d = 6 ∧ 24 < dayOf d then
    "Zomertijd\nVergeet niet je klok niet een uur vooruit te zetten!"
  else if monthOf d = 5 ∧ weekdayOf d = 6 ∧ 7 < dayOf d ∧ dayOf d < 15 then "Moederdag"
  else if monthOf d = 6 ∧ weekdayOf d = 6 ∧ 14 < dayOf d ∧ dayOf d < 22 then "Vaderdag"
  else if monthOf d = 9 ∧ weekdayOf d = 1 ∧ 15 < dayOf d ∧ dayOf d < 23 then "Prinsjesdag"
  else if monthOf d = 10 ∧ weekdayOf d = 6 ∧ 24 < dayOf d then
    "Wintertijd\nVergeet niet je klok een uur terug te zetten!"
  else if d = easterNat (yearOf d) then "Eerste Paasdag"
  else if d = easterNat (yearOf d) - 2 then "Goede Vrijdag"
  else if d = easterNat (yearOf d) + 1 then "Tweede Paasdag"
  else if d = easterNat (yearOf d) + 39 then "Hemelvaart"
  else if d = easterNat (yearOf d) + 49 then "Eerste Pinksterdag"
  else if d = easterNat (yearOf d) + 50 then "Tweede Pinksterdag"
  else if d = a then "Carnaval"
  else if d = a - 1 then "Carnaval"
  else if d = a - 2 then "Carnaval"
  else ""

/-- The Holiday Rule Engine: Dutch name of the holiday on a date, or the empty
string (`generate.py` `holiday`). -/
def holiday (d : Nat) : String :=
  holidayWith d (carnavalDate (easterNat (yearOf d)) 40)

/-- Fixed-date rule block of `holiday` (lines 79–110) in isolation: the first
matching fixed-date name, or the empty string when the block falls through. -/
def fixedHoliday (d : Nat) : String :=
  if monthOf d = 1 ∧ dayOf d = 1 then "Nieuwjaar"
  else if monthOf d = 1 ∧ dayOf d = 6 then "Drie Koningen"
  else if monthOf d = 2 ∧ dayOf d = 14 then "Valentijn"
  else if monthOf d = 4 ∧ dayOf d = 27 then "Koningsdag"
  else if monthOf d = 5 ∧ dayOf d = 4 then "Dodenherdenking"
  else if monthOf d = 5 ∧ dayOf d = 5 then "Bevrijdingsdag"
  else if monthOf d = 7 ∧ dayOf d = 29 then "Frikandellendag"
  else if monthOf d = 10 ∧ dayOf d = 4 then "Dierendag"
  else if monthOf d = 12 ∧ dayOf d = 5 then "Sinterklaas"
  else if monthOf d = 12 ∧ dayOf d = 25 then "Eerste Kerstdag"
  else if monthOf d = 12 ∧ dayOf d = 26 then "Tweede Kerstdag"
  else if monthOf d = 12 ∧ dayOf d = 31 then "Oudjaar"
  else ""

/-- Nth-weekday-of-month rule block of `holiday` (lines 112–123) in isolation. -/
def nthWeekdayHoliday (d : Nat) : String :=
  if monthOf d = 3 ∧ weekdayOf d = 6 ∧ 24 < dayOf d then
    "Zomertijd\nVergeet niet je klok niet een uur vooruit te zetten!"
  else if monthOf d = 5 ∧ weekdayOf d = 6 ∧ 7 < dayOf d ∧ dayOf d < 15 then "Moederdag"
  else if monthOf d = 6 ∧ weekdayOf d = 6 ∧ 14 < dayOf d ∧ dayOf d < 22 then "Vaderdag"
  else if monthOf d = 9 ∧ weekdayOf d = 1 ∧ 15 < dayOf d ∧ dayOf d < 23 then "Prinsjesdag"
  else if monthOf d = 10 ∧ weekdayOf d = 6 ∧ 24 < dayOf d then
    "Wintertijd\nVergeet niet je klok een uur terug te zetten!"
  else ""

/-- Easter-relative rule block of `holiday` (lines 125–138) in isolation. -/
def easterHoliday (d : Nat) : String :=
  if d = easterNat (yearOf d) then "Eerste Paasdag"
  else if d = easterNat (yearOf d) - 2 then "Goede Vrijdag"
  else if d = easterNat (yearOf d) + 1 then "Tweede Paasdag"
  else if d = easterNat (yearOf d) + 39 then "Hemelvaart"
  else if d = easterNat (yearOf d) + 49 then "Eerste Pinksterdag"
  else if d = easterNat (yearOf d) + 50 then "Tweede Pinksterdag"
  else ""

/-- Carnival rule block of `holiday` (lines 140–149) with the anchor as a
parameter; the source's `for i in range(3)` test is unrolled. -/
def carnavalWith (d a : Nat) : String :=
  if d = a then "Carnaval"
  else if d = a - 1 then "Carnaval"
  else if d = a - 2 then "Carnaval"
  else ""

/-- Carnival rule block of `holiday` in isolation. -/
def carnavalHoliday (d : Nat) : String :=
  carnavalWith d (carnavalDate (easterNat (yearOf d)) 40)

/-- A year-month-day key of the birthdays/weddings tables (a full
`datetime.date` parsed by the YAML loader). -/
structure Ymd where
  year : Nat
  month : Nat
  day : Nat
deriving DecidableEq

/-- The `process_birthdays` generator (lines 153–172): for every table entry
whose month and day equal the date's, one (name, age) pair per listed name,
in table order; age is the date's year minus the birth year. -/
def process_birthdays (date : Nat) (birthdays : List (Ymd × List String)) :
    List (String × Int) :=
  birthdays.flatMap fun e =>
    if e.1.month = monthOf date ∧ e.1.day = dayOf date then
      e.2.map fun name => (name, (yearOf date : Int) - (e.1.year : Int))
    else []

/-- The `process_weddings` generator (lines 175–195): symmetric to birthdays;
each couple's names are joined with an " & " separator. -/
def process_weddings (date : Nat) (weddings : List (Ymd × List (List String))) :
    List (String × Int) :=
  weddings.flatMap fun e =>
    if e.1.month = monthOf date ∧ e.1.day = dayOf date then
      e.2.map fun couple =>
        (String.intercalate " & " couple, (yearOf date : Int) - (e.1.year : Int))
    else []

/-- A day record as produced by `day_to_dict` (the progress-log print of the
source is an observability side effect and is not part of the record). -/
structure Day where
  day : Nat
  month : String
  short_month : String
  week_day : String
  events : List String
deriving DecidableEq

/-- Zero-padded two-digit rendering of a month or day number, as `strftime`
uses for `%m` and `%d`. -/
def pad2 (n : Nat) : String := if n < 10 then "0" ++ toString n else toString n

/-- The month-day key `date.strftime` renders for the `%m-%d` format, used to
address the special-dates table. -/
def dateKey (d : Nat) : String := pad2 (monthOf d) ++ "-" ++ pad2 (dayOf d)

/-- The `day_to_dict` builder (lines 198–240). The special-dates table is a
key-ordered association list (Python dicts preserve insertion order and have
unique keys); a missing key is suppressed, not an error. -/
def day_to_dict (date : Nat) (birthdays : List (Ymd × List String))
    (weddings : List (Ymd × List (List String)))
    (special_dates : List (String × String)) : Day :=
  let hol := holiday date
  { day := dayOf date
    month := monthName (monthOf date)
    short_month := shortMonthName (monthOf date)
    week_day := pyCapitalize (weekdayName (weekdayOf date))
    events :=
      (if hol ≠ "" then [hol] else [])
      ++ (List.lookup (dateKey date) special_dates).toList
      ++ (process_birthdays date birthdays).map
          (fun b => b.1 ++ " " ++ toString b.2 ++ " jaar")
      ++ (process_weddings date weddings).map
          (fun w => w.1 ++ " " ++ toString w.2 ++ " jaar getrouwd") }

/-- A week record as produced by `create_week`. -/
structure Week where
  weeknumber : Nat
  mon : Day
  tue : Day
  wed : Day
  thu : Day
  fri : Day
  sat : Day
  sun : Day
  month : String
deriving DecidableEq

/-- ISO week number of a date (Python `date.isocalendar()[1]`): the ISO week
is numbered by its Thursday, counted from January 1 of that Thursday's year. -/
def isoWeekNumber (d : Nat) : Nat :=
  let th := d - weekdayOf d + 3
  (th - daysFromCivil (yearOf th) 1 1) / 7 + 1

/-- The `create_week` builder (lines 243–278): seven consecutive day records
from the starting Monday `sd`, the ISO week number of `sd`, and the month
label. The source binds Sunday's capitalized month to `first_month` and
Monday's to `last_month` and formats `first / last`, so Sunday's month
comes first in the two-name label. -/
def create_week (sd : Nat) (birthdays : List (Ymd × List String))
    (weddings : List (Ymd × List (List String)))
    (special_dates : List (String × String)) : Week :=
  let monD := day_to_dict sd birthdays weddings special_dates
  let sunD := day_to_dict (sd + 6) birthdays weddings special_dates
  let first_month := pyCapitalize sunD.month
  let last_month := pyCapitalize monD.month
  { weeknumber := isoWeekNumber sd
    mon := monD
    tue := day_to_dict (sd + 1) birthdays weddings special_dates
    wed := day_to_dict (sd + 2) birthdays weddings special_dates
    thu := day_to_dict (sd + 3) birthdays weddings special_dates
    fri := day_to_dict (sd + 4) birthdays weddings special_dates
    sat := day_to_dict (sd + 5) birthdays weddings special_dates
    sun := sunD
    month := if first_month = last_month then first_month
             else first_month ++ " / " ++ last_month }

/-- The `start_date` function (lines 53–65): the Monday on or before
January 1 of the year. -/
def start_date (year : Nat) : Nat :=
  daysFromCivil year 1 1 - weekdayOf (daysFromCivil year 1 1)

/-- Any day number whose year field is at most `y` is below `366 * y + 1098`;
this bounds the week loop of `create_weeks_for_year`. -/
theorem yearOf_le_bound (n y : Nat) (h : yearOf n ≤ y) : n < 366 * y + 1098 := by
  unfold yearOf at h
  dsimp only at h
  split at h <;> omega

/-- The Monday sequence traversed by the `while` loop of
`create_weeks_for_year` (lines 296–299): the starting Mondays, advancing by
seven days while the Monday's year does not exceed the target year. -/
def mondaysGo (year : Nat) (d : Nat) : List Nat :=
  if yearOf d ≤ year then d :: mondaysGo year (d + 7) else []
termination_by 366 * year + 1098 - d
decreasing_by
  rename_i h
  have := yearOf_le_bound d year h
  omega

/-- The starting Mondays of all weeks the Year Sequencer produces for a year. -/
def sequencerMondays (year : Nat) : List Nat := mondaysGo year (start_date year)

/-- The week loop of `create_weeks_for_year` (lines 296–299): yield a week for
the current Monday while its year does not exceed the target year, then
advance seven days. The Python generator is lazy; its eager list of produced
weeks is embedded. -/
def weeksGo (year : Nat) (birthdays : List (Ymd × List String))
    (weddings : List (Ymd × List (List String)))
    (special_dates : List (String × String)) (d : Nat) : List Week :=
  if yearOf d ≤ year then
    create_week d birthdays weddings special_dates
      :: weeksGo year birthdays weddings special_dates (d + 7)
  else []
termination_by 366 * year + 1098 - d
decreasing_by
  rename_i h
  have := yearOf_le_bound d year h
  omega

/-- The `create_weeks_for_year` generator (lines 281–299). -/
def create_weeks_for_year (year : Nat) (birthdays : List (Ymd × List String))
    (weddings : List (Ymd × List (List String)))
    (special_dates : List (String × String)) : List Week :=
  weeksGo year birthdays weddings special_dates (start_date year)

/-- The parsed YAML configuration as far as `generate` inspects it: each of
the four required keys either present with its value or absent (`Option`).
Template path, file handles and YAML parsing are collaborator plumbing and
out of scope. -/
structure CalendarData where
  year : Option Nat
  birthdays : Option (List (Ymd × List String))
  weddings : Option (List (Ymd × List (List String)))
  special_dates : Option (List (String × String))

/-- Outcome of the `generate` entry point (lines 302–334): either the
distinct configuration error `BadConfigError`, raised before any week record
is produced (the error carries no weeks), or the full week sequence handed to
the renderer. Rendering and file output are out of scope. -/
inductive GenResult where
  | badConfig : GenResult
  | ok : List Week → GenResult
deriving DecidableEq

/-- The configuration handling of `generate` (lines 319–328): the `year`
argument takes precedence when truthy (Python `year or calendar_data['year']`,
where `None` and `0` are falsy); a `KeyError` on any of the four lookups is
turned into `BadConfigError`. -/
def generate (yearArg : Option Nat) (cd : CalendarData) : GenResult :=
  let yearVal : Option Nat :=
    match yearArg with
    | some y => if y = 0 then cd.year else some y
    | none => cd.year
  match yearVal, cd.birthdays, cd.weddings, cd.special_dates with
  | some y, some bt, some wt, some st => .ok (create_weeks_for_year y bt wt st)
  | _, _, _, _ => .badConfig

/-- The Carnival walk with an exhausted counter stops immediately. -/
theorem carnavalDate_stop (c : Nat) : carnavalDate c 0 = c := by
  rw [carnavalDate]
  simp

/-- One iteration of the Carnival walk on a Sunday: the date steps back, the
counter is untouched. -/
theorem carnavalDate_sunday (c i : Nat) (hi : i ≠ 0) (hs : weekdayOf c = 6) :
    carnavalDate c i = carnavalDate (c - 1) i := by
  rw [carnavalDate]
  simp [hi, hs]

/-- One iteration of the Carnival walk on a non-Sunday: date and counter both
step down. -/
theorem carnavalDate_plain (c i : Nat) (hi : i ≠ 0) (hs : weekdayOf c ≠ 6) :
    carnavalDate c i = carnavalDate (c - 1) (i - 1) := by
  rw [carnavalDate]
  simp [hi, hs]

/-- Seven iterations of the Carnival walk starting on a Sunday traverse one
calendar week and consume six counter units (a week holds one Sunday). -/
theorem carnavalDate_week (c i : Nat) (hc : 7 ≤ c) (hs : weekdayOf c = 6) (hi : 6 ≤ i) :
    carnavalDate c i = carnavalDate (c - 7) (i - 6) := by
  have w1 : weekdayOf (c - 1) ≠ 6 := by simp only [weekdayOf] at hs ⊢; omega
  have w2 : weekdayOf (c - 2) ≠ 6 := by simp only [weekdayOf] at hs ⊢; omega
  have w3 : weekdayOf (c - 3) ≠ 6 := by simp only [weekdayOf] at hs ⊢; omega
  have w4 : weekdayOf (c - 4) ≠ 6 := by simp only [weekdayOf] at hs ⊢; omega
  have w5 : weekdayOf (c - 5) ≠ 6 := by simp only [weekdayOf] at hs ⊢; omega
  have w6 : weekdayOf (c - 6) ≠ 6 := by simp only [weekdayOf] at hs ⊢; omega
  rw [carnavalDate_sunday c i (by omega) hs]
  rw [carnavalDate_plain (c - 1) i (by omega) w1]
  rw [show c - 1 - 1 = c - 2 by omega]
  rw [carnavalDate_plain (c - 2) (i - 1) (by omega) w2]
  rw [show c - 2 - 1 = c - 3 by omega, show i - 1 - 1 = i - 2 by omega]
  rw [carnavalDate_plain (c - 3) (i - 2) (by omega) w3]
  rw [show c - 3 - 1 = c - 4 by omega, show i - 2 - 1 = i - 3 by omega]
  rw [carnavalDate_plain (c - 4) (i - 3) (by omega) w4]
  rw [show c - 4 - 1 = c - 5 by omega, show i - 3 - 1 = i - 4 by omega]
  rw [carnavalDate_plain (c - 5) (i - 4) (by omega) w5]
  rw [show c - 5 - 1 = c - 6 by omega, show i - 4 - 1 = i - 5 by omega]
  rw [carnavalDate_plain (c - 6) (i - 5) (by omega) w6]
  rw [show c - 6 - 1 = c - 7 by omega, show i - 5 - 1 = i - 6 by omega]

/-- Started on a Sunday with counter 40, the Carnival walk lands exactly 47
days earlier: six full weeks (6 counter units each) plus one Sunday step plus
four non-Sunday steps. -/
theorem carnavalDate_anchor (c : Nat) (hc : 47 ≤ c) (hs : weekdayOf c = 6) :
    carnavalDate c 40 = c - 47 := by
  have s7 : weekdayOf (c - 7) = 6 := by simp only [weekdayOf] at hs ⊢; omega
  have s14 : weekdayOf (c - 14) = 6 := by simp only [weekdayOf] at hs ⊢; omega
  have s21 : weekdayOf (c - 21) = 6 := by simp only [weekdayOf] at hs ⊢; omega
  have s28 : weekdayOf (c - 28) = 6 := by simp only [weekdayOf] at hs ⊢; omega
  have s35 : weekdayOf (c - 35) = 6 := by simp only [weekdayOf] at hs ⊢; omega
  have s42 : weekdayOf (c - 42) = 6 := by simp only [weekdayOf] at hs ⊢; omega
  have w43 : weekdayOf (c - 43) ≠ 6 := by simp only [weekdayOf] at hs ⊢; omega
  have w44 : weekdayOf (c - 44) ≠ 6 := by simp only [weekdayOf] at hs ⊢; omega
  have w45 : weekdayOf (c - 45) ≠ 6 := by simp only [weekdayOf] at hs ⊢; omega
  have w46 : weekdayOf (c - 46) ≠ 6 := by simp only [weekdayOf] at hs ⊢; omega
  rw [carnavalDate_week c 40 (by omega) hs (by omega)]
  rw [carnavalDate_week (c - 7) (40 - 6) (by omega) s7 (by omega)]
  rw [show c - 7 - 7 = c - 14 by omega, show 40 - 6 - 6 = 28 by omega]
  rw [carnavalDate_week (c - 14) 28 (by omega) s14 (by omega)]
  rw [show c - 14 - 7 = c - 21 by omega, show 28 - 6 = 22 by omega]
  rw [carnavalDate_week (c - 21) 22 (by omega) s21 (by omega)]
  rw [show c - 21 - 7 = c - 28 by omega, show 22 - 6 = 16 by omega]
  rw [carnavalDate_week (c - 28) 16 (by omega) s28 (by omega)]
  rw [show c - 28 - 7 = c - 35 by omega, show 16 - 6 = 10 by omega]
  rw [carnavalDate_week (c - 35) 10 (by omega) s35 (by omega)]
  rw [show c - 35 - 7 = c - 42 by omega, show 10 - 6 = 4 by omega]
  rw [carnavalDate_sunday (c - 42) 4 (by omega) s42]
  rw [show c - 42 - 1 = c - 43 by omega]
  rw [carnavalDate_plain (c - 43) 4 (by omega) w43]
  rw [show c - 43 - 1 = c - 44 by omega, show (4 : Nat) - 1 = 3 by omega]
  rw [carnavalDate_plain (c - 44) 3 (by omega) w44]
  rw [show c - 44 - 1 = c - 45 by omega, show (3 : Nat) - 1 = 2 by omega]
  rw [carnavalDate_plain (c - 45) 2 (by omega) w45]
  rw [show c - 45 - 1 = c - 46 by omega, show (2 : Nat) - 1 = 1 by omega]
  rw [carnavalDate_plain (c - 46) 1 (by omega) w46]
  rw [show c - 46 - 1 = c - 47 by omega, show (1 : Nat) - 1 = 0 by omega]
  exact carnavalDate_stop (c - 47)

/-- Unfolding of `mondaysGo` when the loop guard holds. -/
theorem mondaysGo_step (y d : Nat) (h : yearOf d ≤ y) :
    mondaysGo y d = d :: mondaysGo y (d + 7) := by
  rw [mondaysGo]
  simp [h]

/-- Unfolding of `mondaysGo` when the loop guard fails. -/
theorem mondaysGo_stop (y d : Nat) (h : ¬ yearOf d ≤ y) : mondaysGo y d = [] := by
  rw [mondaysGo]
  simp [h]

/-- Unfolding of `weeksGo` when the loop guard holds. -/
theorem weeksGo_step (y : Nat) (bt : List (Ymd × List String))
    (wt : List (Ymd × List (List String))) (st : List (String × String))
    (d : Nat) (h : yearOf d ≤ y) :
    weeksGo y bt wt st d = create_week d bt wt st :: weeksGo y bt wt st (d + 7) := by
  rw [weeksGo]
  simp [h]

/-- Unfolding of `weeksGo` when the loop guard fails. -/
theorem weeksGo_stop (y : Nat) (bt : List (Ymd × List String))
    (wt : List (Ymd × List (List String))) (st : List (String × String))
    (d : Nat) (h : ¬ yearOf d ≤ y) : weeksGo y bt wt st d = [] := by
  rw [weeksGo]
  simp [h]

/-- Recursion principle matching the week loop: to prove a property of every
starting Monday it suffices to handle the guard-true step and the guard-false
stop, because the loop measure `366 * y + 1098 - d` strictly decreases. -/
theorem weekLoop_rec (y : Nat) (motive : Nat → Prop)
    (step : ∀ d, yearOf d ≤ y → motive (d + 7) → motive d)
    (stop : ∀ d, ¬ yearOf d ≤ y → motive d) : ∀ d, motive d := by
  have key : ∀ n d, 366 * y + 1098 - d ≤ n → motive d := by
    intro n
    induction n with
    | zero =>
      intro d hd
      by_cases hy : yearOf d ≤ y
      · have := yearOf_le_bound d y hy
        omega
      · exact stop d hy
    | succ n ih =>
      intro d hd
      by_cases hy : yearOf d ≤ y
      · exact step d hy (ih (d + 7) (by omega))
      · exact stop d hy
  intro d
  exact key (366 * y + 1098) d (by omega)

/-- The weeks the sequencer loop produces are exactly one `create_week` per
traversed Monday, in order. -/
theorem weeksGo_eq_map (y : Nat) (bt : List (Ymd × List String))
    (wt : List (Ymd × List (List String))) (st : List (String × String)) :
    ∀ d, weeksGo y bt wt st d = (mondaysGo y d).map (fun m => create_week m bt wt st) := by
  refine weekLoop_rec y _ ?_ ?_
  · intro d hy ih
    rw [weeksGo_step y bt wt st d hy, mondaysGo_step y d hy]
    simp [ih]
  · intro d hy
    rw [weeksGo_stop y bt wt st d hy, mondaysGo_stop y d hy]
    simp

/-- Every Monday the loop traverses satisfies the loop guard: its year does
not exceed the target year. -/
theorem mondaysGo_mem_le (y : Nat) :
    ∀ d, ∀ x ∈ mondaysGo y d, yearOf x ≤ y := by
  refine weekLoop_rec y _ ?_ ?_
  · intro d hy ih x hx
    rw [mondaysGo_step y d hy] at hx
    rcases List.mem_cons.mp hx with h | h
    · subst h
      exact hy
    · exact ih x h
  · intro d hy x hx
    rw [mondaysGo_stop y d hy] at hx
    simp at hx

/-- The k-th traversed Monday is the start plus `7 * k` days. -/
theorem mondaysGo_getElem (y : Nat) :
    ∀ k d m, (mondaysGo y d)[k]? = some m → m = d + 7 * k := by
  intro k
  induction k with
  | zero =>
    intro d m h
    by_cases hy : yearOf d ≤ y
    · rw [mondaysGo_step y d hy] at h
      simp at h
      omega
    · rw [mondaysGo_stop y d hy] at h
      simp at h
  | succ k ih =>
    intro d m h
    by_cases hy : yearOf d ≤ y
    · rw [mondaysGo_step y d hy] at h
      simp only [List.getElem?_cons_succ] at h
      have := ih (d + 7) m h
      omega
    · rw [mondaysGo_stop y d hy] at h
      simp at h

/-- The Monday following the last traversed one violates the loop guard: its
year exceeds the target year. -/
theorem mondaysGo_getLast (y : Nat) :
    ∀ d l, (mondaysGo y d).getLast? = some l → ¬ yearOf (l + 7) ≤ y := by
  refine weekLoop_rec y _ ?_ ?_
  · intro d hy ih l hl
    rw [mondaysGo_step y d hy] at hl
    by_cases hnext : yearOf (d + 7) ≤ y
    · rw [mondaysGo_step y (d + 7) hnext] at hl
      rw [List.getLast?_cons_cons] at hl
      rw [← mondaysGo_step y (d + 7) hnext] at hl
      exact ih l hl
    · rw [mondaysGo_stop y (d + 7) hnext] at hl
      simp at hl
      subst hl
      exact hnext
  · intro d hy l hl
    rw [mondaysGo_stop y d hy] at hl
    simp at hl

/-- The month field of any day number lies in 1–12. -/
theorem monthOf_range (n : Nat) : 1 ≤ monthOf n ∧ monthOf n ≤ 12 := by
  unfold monthOf
  dsimp only
  split <;> omega

/-- The Monday on or before January 1 still lies in the target year or the
year before it, so the sequencer loop guard holds at the start. -/
theorem yearOf_start_le (y : Nat) (hy : 1 ≤ y) : yearOf (start_date y) ≤ y := by
  unfold start_date daysFromCivil weekdayOf yearOf
  dsimp only
  split_ifs <;> omega

/-- Distinct month numbers in 0–12 have distinct capitalized long names
(0 stands for the out-of-range fallback name). -/
theorem capMonthName_inj : ∀ a, a < 13 → ∀ b, b < 13 →
    pyCapitalize (monthName a) = pyCapitalize (monthName b) → a = b := by decide

/-- The month label of any built week, expressed through the month numbers of
its Monday and its Sunday: the capitalized single name when they agree,
otherwise Sunday's capitalized name, " / ", then Monday's. -/
theorem create_week_month (sd : Nat) (bt : List (Ymd × List String))
    (wt : List (Ymd × List (List String))) (st : List (String × String)) :
    (create_week sd bt wt st).month =
      if monthOf sd = monthOf (sd + 6) then pyCapitalize (monthName (monthOf sd))
      else pyCapitalize (monthName (monthOf (sd + 6))) ++ " / "
            ++ pyCapitalize (monthName (monthOf sd)) := by
  show (if pyCapitalize (monthName (monthOf (sd + 6))) = pyCapitalize (monthName (monthOf sd))
        then pyCapitalize (monthName (monthOf (sd + 6)))
        else pyCapitalize (monthName (monthOf (sd + 6))) ++ " / "
              ++ pyCapitalize (monthName (monthOf sd))) = _
  by_cases h : monthOf sd = monthOf (sd + 6)
  · rw [h]
    simp
  · have hne : pyCapitalize (monthName (monthOf (sd + 6))) ≠ pyCapitalize (monthName (monthOf sd)) := by
      intro he
      exact h (capMonthName_inj (monthOf sd) (by have := monthOf_range sd; omega)
        (monthOf (sd + 6)) (by have := monthOf_range (sd + 6); omega) he.symm)
    rw [if_neg hne, if_neg h]

/-- Mapping over a guarded flat-map is a flat-map over the filtered list:
the loop `for entry: if match: for x in entry: yield f x` visits exactly the
matching entries in table order. -/
theorem flatMap_if_map {α β γ : Type} (l : List α) (p : α → Prop) [DecidablePred p]
    (g : α → List β) (f : β → γ) :
    ((l.flatMap fun a => if p a then g a else []).map f) =
      (l.filter fun a => decide (p a)).flatMap fun a => (g a).map f := by
  induction l with
  | nil => simp
  | cons a t ih => by_cases hp : p a <;> simp [hp, ih]

/-- Composition step for first-match if-chains: prepending the same guarded
leaf to a block and to its continuation preserves the
first-non-empty-block-wins reading, provided the leaf text is non-empty. -/
theorem ite_chain_first (c : Prop) [Decidable c] (s rest alt tail : String)
    (hs : s ≠ "") (H : rest = if alt ≠ "" then alt else tail) :
    (if c then s else rest) = if (if c then s else alt) ≠ "" then (if c then s else alt) else tail := by
  by_cases h : c <;> simp [h, hs, H]

/-- Peeling one leaf off a first-match if-chain: when the chain's value is not
the leaf's text, the value comes from the rest of the chain. -/
theorem ite_peel {c : Prop} [Decidable c] {s rest v : String} (h : (if c then s else rest) = v)
    (hs : s ≠ v) : rest = v := by
  by_cases hc : c
  · rw [if_pos hc] at h
    exact absurd h hs
  · rwa [if_neg hc] at h

/-- Only the Carnival block of the rule chain returns the name "Carnaval",
and it does so exactly on the anchor and the two preceding days. -/
theorem holiday_carnaval_inv (d : Nat) (h : holiday d = "Carnaval") :
    d = carnavalDate (easterNat (yearOf d)) 40
      ∨ d = carnavalDate (easterNat (yearOf d)) 40 - 1
      ∨ d = carnavalDate (easterNat (yearOf d)) 40 - 2 := by
  unfold holiday holidayWith at h
  generalize easterNat (yearOf d) = E at h ⊢
  generalize carnavalDate E 40 = A at h ⊢
  replace h := ite_peel h (by decide)
  replace h := ite_peel h (by decide)
  replace h := ite_peel h (by decide)
  replace h := ite_peel h (by decide)
  replace h := ite_peel h (by decide)
  replace h := ite_peel h (by decide)
  replace h := ite_peel h (by decide)
  replace h := ite_peel h (by decide)
  replace h := ite_peel h (by decide)
  replace h := ite_peel h (by decide)
  replace h := ite_peel h (by decide)
  replace h := ite_peel h (by decide)
  replace h := ite_peel h (by decide)
  replace h := ite_peel h (by decide)
  replace h := ite_peel h (by decide)
  replace h := ite_peel h (by decide)
  replace h := ite_peel h (by decide)
  replace h := ite_peel h (by decide)
  replace h := ite_peel h (by decide)
  replace h := ite_peel h (by decide)
  replace h := ite_peel h (by decide)
  replace h := ite_peel h (by decide)
  replace h := ite_peel h (by decide)
  by_cases h1 : d = A
  · exact Or.inl h1
  · rw [if_neg h1] at h
    by_cases h2 : d = A - 1
    · exact Or.inr (Or.inl h2)
    · rw [if_neg h2] at h
      by_cases h3 : d = A - 2
      · exact Or.inr (Or.inr h3)
      · rw [if_neg h3] at h
        exact absurd h (by decide)

/-- The monolithic rule chain of `holiday` equals the first-match composition
of its four category blocks in source order: fixed-date, then
Nth-weekday-of-month, then Easter-relative, then Carnival. -/
theorem holiday_first_match (d : Nat) :
    holiday d =
      if fixedHoliday d ≠ "" then fixedHoliday d
      else if nthWeekdayHoliday d ≠ "" then nthWeekdayHoliday d
      else if easterHoliday d ≠ "" then easterHoliday d
      else carnavalHoliday d := by
  unfold holiday holidayWith fixedHoliday nthWeekdayHoliday easterHoliday carnavalHoliday carnavalWith
  refine ite_chain_first _ _ _ _ _ (by decide) ?_
  refine ite_chain_first _ _ _ _ _ (by decide) ?_
  refine ite_chain_first _ _ _ _ _ (by decide) ?_
  refine ite_chain_first _ _ _ _ _ (by decide) ?_
  refine ite_chain_first _ _ _ _ _ (by decide) ?_
  refine ite_chain_first _ _ _ _ _ (by decide) ?_
  refine ite_chain_first _ _ _ _ _ (by decide) ?_
  refine ite_chain_first _ _ _ _ _ (by decide) ?_
  refine ite_chain_first _ _ _ _ _ (by decide) ?_
  refine ite_chain_first _ _ _ _ _ (by decide) ?_
  refine ite_chain_first _ _ _ _ _ (by decide) ?_
  refine ite_chain_first _ _ _ _ _ (by decide) ?_
  rw [if_neg (show ¬("" ≠ "") by decide)]
  refine ite_chain_first _ _ _ _ _ (by decide) ?_
  refine ite_chain_first _ _ _ _ _ (by decide) ?_
  refine ite_chain_first _ _ _ _ _ (by decide) ?_
  refine ite_chain_first _ _ _ _ _ (by decide) ?_
  refine ite_chain_first _ _ _ _ _ (by decide) ?_
  rw [if_neg (show ¬("" ≠ "") by decide)]
  refine ite_chain_first _ _ _ _ _ (by decide) ?_
  refine ite_chain_first _ _ _ _ _ (by decide) ?_
  refine ite_chain_first _ _ _ _ _ (by decide) ?_
  refine ite_chain_first _ _ _ _ _ (by decide) ?_
  refine ite_chain_first _ _ _ _ _ (by decide) ?_
  refine ite_chain_first _ _ _ _ _ (by decide) ?_
  rw [if_neg (show ¬("" ≠ "") by decide)]

/-- The events list of a day record is the concatenation, in fixed order, of
the optional holiday, the optional special-date text, one birthday event per
name of each matching birthday entry (table order), and one wedding event per
couple of each matching wedding entry (table order). -/
theorem day_events_assembly (d : Nat) (bt : List (Ymd × List String))
    (wt : List (Ymd × List (List String))) (st : List (String × String)) :
    (day_to_dict d bt wt st).events =
      (if holiday d = "" then [] else [holiday d])
      ++ (List.lookup (dateKey d) st).toList
      ++ ((bt.filter fun e => decide (e.1.month = monthOf d ∧ e.1.day = dayOf d)).flatMap
            fun e => e.2.map fun name =>
              name ++ " " ++ toString ((yearOf d : Int) - (e.1.year : Int)) ++ " jaar")
      ++ ((wt.filter fun e => decide (e.1.month = monthOf d ∧ e.1.day = dayOf d)).flatMap
            fun e => e.2.map fun couple =>
              String.intercalate " & " couple ++ " "
                ++ toString ((yearOf d : Int) - (e.1.year : Int)) ++ " jaar getrouwd") := by
  unfold day_to_dict process_birthdays process_weddings
  dsimp only
  rw [flatMap_if_map, flatMap_if_map]
  simp only [List.map_map]
  by_cases h : holiday d = ""
  · simp [h, Function.comp]
    rfl
  · simp [h, Function.comp]
    rfl

/-- The Carnival anchor of 2024: walking back from Easter Sunday 2024
(day number 739281, 2024-03-31) lands on day number 739234 (2024-02-13). -/
theorem carnaval2024 : carnavalDate 739281 40 = 739234 :=
  (carnavalDate_anchor 739281 (by norm_num) (by decide)).trans (by norm_num)

/-- The starting Mondays of the 2015 calendar, evaluated: 53 Mondays from
2014-12-29 (735901) to 2015-12-28 (736265), seven days apart. -/
theorem mondays2015_eq : sequencerMondays 2015 = [735901, 735908, 735915, 735922,
    735929, 735936, 735943, 735950, 735957, 735964, 735971, 735978, 735985,
    735992, 735999, 736006, 736013, 736020, 736027, 736034, 736041, 736048,
    736055, 736062, 736069, 736076, 736083, 736090, 736097, 736104, 736111,
    736118, 736125, 736132, 736139, 736146, 736153, 736160, 736167, 736174,
    736181, 736188, 736195, 736202, 736209, 736216, 736223, 736230, 736237,
    736244, 736251, 736258, 736265] := by
  unfold sequencerMondays start_date
  norm_num [daysFromCivil, weekdayOf]
  simp [mondaysGo_step, mondaysGo_stop, yearOf]

/-- Claim C1 (counterexample): 2024-03-31 is Easter Sunday 2024, yet the
Holiday Rule Engine does not return the Easter Sunday name for it — the
last-Sunday-of-March clock-change rule fires first (2024-03-31 is a Sunday in
March with day > 24, and the Nth-weekday block precedes the Easter block). -/
theorem c1_counterexample :
    easterNat 2024 = daysFromCivil 2024 3 31
      ∧ holiday (daysFromCivil 2024 3 31) ≠ "Eerste Paasdag" := by decide

/-- Claim C1 (amended): Easter Sunday 2024 is 2024-03-31; the Holiday Rule
Engine applied to 2024-03-31 returns the summer-time clock-change message
(the last-Sunday-of-March rule precedes the Easter rules), and applied to
2024-03-29 returns the name for Good Friday. -/
theorem c1_amended :
    easterNat 2024 = daysFromCivil 2024 3 31
      ∧ holiday (daysFromCivil 2024 3 31) =
          "Zomertijd\nVergeet niet je klok niet een uur vooruit te zetten!"
      ∧ holiday (daysFromCivil 2024 3 29) = "Goede Vrijdag" := by decide

/-- Claim C2 (counterexample): the four rule categories are not pairwise
non-overlapping within 1900–2100: on 2016-05-05 both the fixed-date rule
(Liberation Day) and the Easter-relative rule (Ascension, Easter + 39) match. -/
theorem c2_counterexample :
    1900 ≤ yearOf (daysFromCivil 2016 5 5) ∧ yearOf (daysFromCivil 2016 5 5) ≤ 2100
      ∧ fixedHoliday (daysFromCivil 2016 5 5) = "Bevrijdingsdag"
      ∧ easterHoliday (daysFromCivil 2016 5 5) = "Hemelvaart" := by decide

/-- Claim C2 (amended): the rule categories can overlap (e.g. 2016-05-05), so
the engine's result is not independent of evaluation order; the engine still
returns exactly one name: that of the FIRST matching category in the fixed
precedence order fixed-date → Nth-weekday → Easter-relative → Carnival. -/
theorem c2_amended (d : Nat) :
    holiday d =
      if fixedHoliday d ≠ "" then fixedHoliday d
      else if nthWeekdayHoliday d ≠ "" then nthWeekdayHoliday d
      else if easterHoliday d ≠ "" then easterHoliday d
      else carnavalHoliday d :=
  holiday_first_match d

/-- Claim C3 (counterexample): for target year 2015 the LAST produced week
starts on Monday 2015-12-28 (day number 736265), whose year is 2015 — it does
not exceed the target year; the loop tests the guard before yielding, so no
week whose Monday lies in 2016 is ever produced. -/
theorem c3_counterexample :
    create_weeks_for_year 2015 [] [] []
        = (sequencerMondays 2015).map (fun m => create_week m [] [] [])
      ∧ (sequencerMondays 2015).getLast? = some 736265
      ∧ yearOf 736265 = 2015 := by
  refine ⟨weeksGo_eq_map 2015 [] [] [] (start_date 2015), ?_, by decide⟩
  rw [mondays2015_eq]
  decide

/-- Claim C3 (amended): the Year Sequencer yields one week per starting
Monday, advancing seven days, while the Monday's year does not exceed the
target year; every produced week's Monday has year at most the target, and the
Monday following the last produced week's is the first whose year exceeds it. -/
theorem c3_amended (y : Nat) (bt : List (Ymd × List String))
    (wt : List (Ymd × List (List String))) (st : List (String × String)) :
    create_weeks_for_year y bt wt st
        = (sequencerMondays y).map (fun m => create_week m bt wt st)
      ∧ (∀ m ∈ sequencerMondays y, yearOf m ≤ y)
      ∧ (∀ l, (sequencerMondays y).getLast? = some l → y < yearOf (l + 7)) := by
  refine ⟨weeksGo_eq_map y bt wt st (start_date y),
    mondaysGo_mem_le y (start_date y), ?_⟩
  intro l hl
  have := mondaysGo_getLast y (start_date y) l hl
  omega

/-- Witness for claim C3's amended theorem, at year 2015 with empty tables:
the last Monday 736265 (2015-12-28) is within the year, its successor not. -/
theorem c3_witness : yearOf 736265 ≤ 2015 ∧ 2015 < yearOf (736265 + 7) := by
  have h := c3_amended 2015 [] [] []
  constructor
  · exact h.2.1 736265 (by rw [mondays2015_eq]; decide)
  · exact h.2.2 736265 (by rw [mondays2015_eq]; decide)

/-- Claim C4: the weeks the Year Sequencer produces are one per starting
Monday; the Mondays start at January 1 minus its weekday offset (on or before
January 1) and strictly increase by exactly seven days. -/
theorem c4_theorem (y : Nat) (hy : 1 ≤ y) (bt : List (Ymd × List String))
    (wt : List (Ymd × List (List String))) (st : List (String × String))
    (k m mnext : Nat) :
    create_weeks_for_year y bt wt st
        = (sequencerMondays y).map (fun x => create_week x bt wt st)
      ∧ (sequencerMondays y).head? = some (start_date y)
      ∧ ((sequencerMondays y)[k]? = some m → m = start_date y + 7 * k)
      ∧ ((sequencerMondays y)[k]? = some m → (sequencerMondays y)[k + 1]? = some mnext →
          mnext = m + 7)
      ∧ start_date y = daysFromCivil y 1 1 - weekdayOf (daysFromCivil y 1 1)
      ∧ start_date y ≤ daysFromCivil y 1 1 := by
  refine ⟨weeksGo_eq_map y bt wt st (start_date y), ?_, ?_, ?_, rfl, Nat.sub_le _ _⟩
  · unfold sequencerMondays
    rw [mondaysGo_step y (start_date y) (yearOf_start_le y hy)]
    rfl
  · intro h
    exact mondaysGo_getElem y k (start_date y) m h
  · intro h1 h2
    have e1 := mondaysGo_getElem y k (start_date y) m h1
    have e2 := mondaysGo_getElem y (k + 1) (start_date y) mnext h2
    omega

/-- Witness for claim C4, at year 2015 with empty tables: the first week
starts at `start_date 2015` and the second Monday is seven days later. -/
theorem c4_witness :
    (sequencerMondays 2015).head? = some (start_date 2015)
      ∧ (735908 : Nat) = 735901 + 7 := by
  have h := c4_theorem 2015 (by norm_num) [] [] [] 0 735901 735908
  exact ⟨h.2.1, h.2.2.2.1 (by rw [mondays2015_eq]; rfl) (by rw [mondays2015_eq]; rfl)⟩

/-- Claim C5: a built week's month label is the capitalized long month name
when Monday's and Sunday's months agree, and otherwise the two names joined
with " / ", Sunday's month first. -/
theorem c5_theorem (sd : Nat) (bt : List (Ymd × List String))
    (wt : List (Ymd × List (List String))) (st : List (String × String)) :
    (create_week sd bt wt st).month =
      if monthOf sd = monthOf (sd + 6) then pyCapitalize (monthName (monthOf sd))
      else pyCapitalize (monthName (monthOf (sd + 6))) ++ " / "
            ++ pyCapitalize (monthName (monthOf sd)) :=
  create_week_month sd bt wt st

/-- Claim C6 (counterexample): for the week Monday 2014-12-29 … Sunday
2015-01-04 the month label is "Januari / December" — Sunday's month (January)
first — not the December-first form the claim states. -/
theorem c6_counterexample :
    (create_week (daysFromCivil 2014 12 29) [] [] []).month = "Januari / December"
      ∧ (create_week (daysFromCivil 2014 12 29) [] [] []).month ≠ "December / Januari" := by
  decide

/-- Claim C6 (amended): the week of 2014-12-29 gets the two-name label with
Sunday's month (January) named first; any week lying fully inside one month
gets that single capitalized month name. -/
theorem c6_amended :
    (create_week (daysFromCivil 2014 12 29) [] [] []).month = "Januari / December"
      ∧ ∀ (sd : Nat) (bt : List (Ymd × List String))
          (wt : List (Ymd × List (List String))) (st : List (String × String)),
          monthOf sd = monthOf (sd + 6) →
            (create_week sd bt wt st).month = pyCapitalize (monthName (monthOf sd)) := by
  refine ⟨by decide, ?_⟩
  intro sd bt wt st h
  rw [create_week_month]
  exact if_pos h

/-- Witness for claim C6's amended theorem: the week of Monday 2014-12-01 lies
fully inside December and its label is the single capitalized month name. -/
theorem c6_witness :
    (create_week (daysFromCivil 2014 12 1) [] [] []).month
      = pyCapitalize (monthName (monthOf (daysFromCivil 2014 12 1))) :=
  c6_amended.2 (daysFromCivil 2014 12 1) [] [] [] (by decide)

/-- Claim C7: for every date and tables, the Day Builder's events list is the
ordered concatenation holiday (if any) → special-date text (exact month-day
key match, absence suppressed) → one birthday event per matching name in
table order → one wedding event per matching couple in table order; being a
list, it is possibly empty but never null. -/
theorem c7_theorem (d : Nat) (bt : List (Ymd × List String))
    (wt : List (Ymd × List (List String))) (st : List (String × String)) :
    (day_to_dict d bt wt st).events =
      (if holiday d = "" then [] else [holiday d])
      ++ (List.lookup (dateKey d) st).toList
      ++ ((bt.filter fun e => decide (e.1.month = monthOf d ∧ e.1.day = dayOf d)).flatMap
            fun e => e.2.map fun name =>
              name ++ " " ++ toString ((yearOf d : Int) - (e.1.year : Int)) ++ " jaar")
      ++ ((wt.filter fun e => decide (e.1.month = monthOf d ∧ e.1.day = dayOf d)).flatMap
            fun e => e.2.map fun couple =>
              String.intercalate " & " couple ++ " "
                ++ toString ((yearOf d : Int) - (e.1.year : Int)) ++ " jaar getrouwd") :=
  day_events_assembly d bt wt st

/-- Claim C8 (counterexample): when a truthy `year` argument is supplied, the
entry point succeeds even though the `year` key is absent from the parsed
configuration (Python `year or calendar_data['year']` never looks the key up),
so absence of the `year` key does not always signal `BadConfigError`. -/
theorem c8_counterexample :
    generate (some 2016)
      { year := none, birthdays := some [], weddings := some [], special_dates := some [] }
      ≠ GenResult.badConfig := by
  simp [generate]

/-- Claim C8 (amended): the entry point signals the distinct `BadConfigError`
(and produces no week records) whenever `birthdays`, `weddings` or
`special dates` is absent, or `year` is absent while no truthy year argument
is supplied; when all four keys are present no such error is raised. -/
theorem c8_amended (ya : Option Nat) (cd : CalendarData) :
    ((cd.birthdays = none ∨ cd.weddings = none ∨ cd.special_dates = none ∨
        (cd.year = none ∧ (ya = none ∨ ya = some 0))) →
          generate ya cd = GenResult.badConfig)
    ∧ (cd.year ≠ none → cd.birthdays ≠ none → cd.weddings ≠ none →
        cd.special_dates ≠ none → generate ya cd ≠ GenResult.badConfig) := by
  obtain ⟨cy, cb, cw, cs⟩ := cd
  constructor
  · intro h
    rcases ya with _ | y <;> rcases cy with _ | yv <;> rcases cb with _ | b <;>
      rcases cw with _ | w <;> rcases cs with _ | s <;>
      simp_all [generate]
  · intro h1 h2 h3 h4
    rcases cy with _ | yv
    · exact absurd rfl h1
    rcases cb with _ | b
    · exact absurd rfl h2
    rcases cw with _ | w
    · exact absurd rfl h3
    rcases cs with _ | s
    · exact absurd rfl h4
    rcases ya with _ | y
    · simp [generate]
    · by_cases hy : y = 0 <;> simp [generate, hy]

/-- Witness for claim C8's amended theorem: a configuration missing
`birthdays` errors, a complete configuration does not. -/
theorem c8_witness :
    generate none
        { year := some 2016, birthdays := none, weddings := some [], special_dates := some [] }
        = GenResult.badConfig
      ∧ generate none
        { year := some 2016, birthdays := some [], weddings := some [], special_dates := some [] }
        ≠ GenResult.badConfig := by
  constructor
  · exact (c8_amended none _).1 (Or.inl rfl)
  · exact (c8_amended none _).2 (by simp) (by simp) (by simp) (by simp)

/-- Claim C9: for 2024 (Easter Sunday 2024-03-31) the engine returns
"Carnaval" on 2024-02-11, 2024-02-12 and 2024-02-13; the Carnival rule does
not match 2024-02-10 or 2024-02-14; and those three days are the only dates
of 2024 on which the engine can return "Carnaval". -/
theorem c9_theorem :
    holiday (daysFromCivil 2024 2 11) = "Carnaval"
      ∧ holiday (daysFromCivil 2024 2 12) = "Carnaval"
      ∧ holiday (daysFromCivil 2024 2 13) = "Carnaval"
      ∧ carnavalHoliday (daysFromCivil 2024 2 10) = ""
      ∧ carnavalHoliday (daysFromCivil 2024 2 14) = ""
      ∧ ∀ d, yearOf d = 2024 → holiday d = "Carnaval" →
          d = daysFromCivil 2024 2 13 ∨ d = daysFromCivil 2024 2 12
            ∨ d = daysFromCivil 2024 2 11 := by
  refine ⟨?_, ?_, ?_, ?_, ?_, ?_⟩
  · show holiday 739232 = "Carnaval"
    unfold holiday
    rw [show easterNat (yearOf 739232) = 739281 from by decide, carnaval2024]
    decide
  · show holiday 739233 = "Carnaval"
    unfold holiday
    rw [show easterNat (yearOf 739233) = 739281 from by decide, carnaval2024]
    decide
  · show holiday 739234 = "Carnaval"
    unfold holiday
    rw [show easterNat (yearOf 739234) = 739281 from by decide, carnaval2024]
    decide
  · show carnavalHoliday 739231 = ""
    unfold carnavalHoliday
    rw [show easterNat (yearOf 739231) = 739281 from by decide, carnaval2024]
    decide
  · show carnavalHoliday 739235 = ""
    unfold carnavalHoliday
    rw [show easterNat (yearOf 739235) = 739281 from by decide, carnaval2024]
    decide
  · intro d hy hc
    have h := holiday_carnaval_inv d hc
    rw [hy, show easterNat 2024 = 739281 from by decide, carnaval2024] at h
    rw [show daysFromCivil 2024 2 13 = 739234 from by decide,
        show daysFromCivil 2024 2 12 = 739233 from by decide,
        show daysFromCivil 2024 2 11 = 739232 from by decide]
    omega

/-- Witness for claim C9: applying its exactness clause to 2024-02-12, which
the theorem itself shows returns "Carnaval". -/
theorem c9_witness :
    daysFromCivil 2024 2 12 = daysFromCivil 2024 2 13
      ∨ daysFromCivil 2024 2 12 = daysFromCivil 2024 2 12
      ∨ daysFromCivil 2024 2 12 = daysFromCivil 2024 2 11 :=
  c9_theorem.2.2.2.2.2 (daysFromCivil 2024 2 12) (by decide) c9_theorem.2.1

/-- Claim C10: the Carnival backward walk from Easter Sunday (counter 40,
decremented only on non-Sunday days) terminates: it stops exactly 47 days
before its start, i.e. after 47 iterations (one date decrement per
iteration), which is within the claimed bound of 47 — any 7 consecutive days
hold at most one Sunday, and the rest of the engine is non-recursive. -/
theorem c10_theorem (y : Nat) (h47 : 47 ≤ easterNat y)
    (hs : weekdayOf (easterNat y) = 6) :
    carnavalDate (easterNat y) 40 = easterNat y - 47
      ∧ easterNat y - carnavalDate (easterNat y) 40 = 47 := by
  have h := carnavalDate_anchor (easterNat y) h47 hs
  exact ⟨h, by omega⟩

/-- Witness for claim C10, at year 2024. -/
theorem c10_witness :
    carnavalDate (easterNat 2024) 40 = easterNat 2024 - 47
      ∧ easterNat 2024 - carnavalDate (easterNat 2024) 40 = 47 :=
  c10_theorem 2024 (by decide) (by decide)

end CalendarGen
